import Mathlib

/-!
# Verification of the effect-sequencing and timeline-assembly core

Shallow embedding of `src/main.py`: two concatenated MoviePy demo scripts.
The first script (lines 1-142) is embedded in namespace `V1`, the second
(lines 143-285) in namespace `V2`.  Library calls that only *construct*
clips (`ImageClip`, `TextClip`, `with_duration`, `with_fps`, `with_effects`,
`with_position`, `CompositeVideoClip`) are modelled as constructors of a
`Visual` syntax tree, since the spec treats the pixel-level transforms as
opaque external collaborators.  Time and durations are rationals.
-/

/-- A time-varying numeric parameter: either a constant or a function of the
elapsed time `t` (seconds since segment start), e.g.
`vfx.Resize(lambda t: 1 + 0.25 * t)`. -/
inductive TimeParam where
  | const (x : ℚ)
  | fn (f : ℚ → ℚ)

/-- The `t` argument of `vfx.Freeze`: MoviePy accepts either a numeric
timestamp or the string sentinel `"end"`. -/
inductive FreezeTime where
  | num (t : ℚ)
  | str (s : String)
deriving DecidableEq

/-- Opaque effect descriptors, one constructor per `vfx.*` class used in the
source, carrying exactly the parameters the source passes. -/
inductive Effect where
  | FadeIn (d : ℚ)
  | FadeOut (d : ℚ)
  | SlideIn (d : ℚ) (side : String)
  | SlideOut (d : ℚ) (side : String)
  | Rotate (deg : TimeParam)
  | MirrorX
  | MirrorY
  | Resize (factor : TimeParam)
  | BlackAndWhite
  | InvertColors
  | LumContrast (contrast : ℚ)
  | Blink (don doff : ℚ)
  | Freeze (t : FreezeTime) (freeze_duration : ℚ)
  | TimeMirror
  | TimeSymmetrize
  | SuperSample (d : ℚ) (n : ℕ)
  | AccelDecel
  | Painting
  | Scroll (w h : ℚ)
  | GammaCorrection (gamma : ℚ)
  | Margin (size : ℕ) (color : ℕ × ℕ × ℕ)

/-- Clip-construction syntax tree: each constructor records one library call
of the segment-building code, with the parameters the source passes. -/
inductive Visual where
  | imageClip (path : String)
  | textClip (text : String) (fontSize : ℕ) (color bg font align : String)
  | withDuration (c : Visual) (d : ℚ)
  | withFps (c : Visual) (fps : ℕ)
  | withEffects (c : Visual) (effects : List Effect)
  | withPosition (c : Visual) (pos : String × String)
  | composite (layers : List Visual)

-- ───────────────────── Video parameters (shared constants) ─────────────────
def image_path : String := "assets/pic.png"
def audio_path : String := "assets/song.mp3"
def FPS : ℕ := 8
def PER_CLIP_DURATION : ℚ := 2
def FONT : String := "Arial"
def FONT_SIZE : ℕ := 50
def TEXT_COLOR : String := "white"
def TEXT_BG : String := "black"

/-- Segment construction shared by both scripts (lines 101-120 and 225-239):
base = image clip with the given duration and fps, with the effect list
applied; overlay = label text clip with the same duration, positioned
bottom-center; result = composite of [base, overlay] (overlay on top). -/
def makeClipWith (dur : ℚ) (fps : ℕ) (label : String) (effects : List Effect) : Visual :=
  Visual.composite
    [ (((Visual.imageClip image_path).withDuration dur).withFps fps).withEffects effects,
      ((Visual.textClip label FONT_SIZE TEXT_COLOR TEXT_BG FONT "center").withDuration
          dur).withPosition ("center", "bottom") ]

-- ───────────────────── Semantic accessors on the Visual tree ───────────────

/-- The source image path of a (wrapped) image clip, if any. -/
def baseSource : Visual → Option String
  | .imageClip p => some p
  | .withDuration c _ => baseSource c
  | .withFps c _ => baseSource c
  | .withEffects c _ => baseSource c
  | .withPosition c _ => baseSource c
  | _ => none

/-- The effect list applied to a clip, in application order (outer
`with_effects` calls append after inner ones). -/
def effectsApplied : Visual → List Effect
  | .withEffects c es => effectsApplied c ++ es
  | .withDuration c _ => effectsApplied c
  | .withFps c _ => effectsApplied c
  | .withPosition c _ => effectsApplied c
  | _ => []

/-- The label text of a (wrapped) text clip, if any. -/
def textOf : Visual → Option String
  | .textClip s _ _ _ _ _ => some s
  | .withDuration c _ => textOf c
  | .withFps c _ => textOf c
  | .withEffects c _ => textOf c
  | .withPosition c _ => textOf c
  | _ => none

/-- The position assigned by `with_position`, if any. -/
def positionOf : Visual → Option (String × String)
  | .withPosition _ p => some p
  | .withDuration c _ => positionOf c
  | .withFps c _ => positionOf c
  | .withEffects c _ => positionOf c
  | _ => none

/-- The fps assigned by `with_fps`, if any. -/
def fpsOf : Visual → Option ℕ
  | .withFps _ f => some f
  | .withDuration c _ => fpsOf c
  | .withEffects c _ => fpsOf c
  | .withPosition c _ => fpsOf c
  | _ => none

mutual

/-- The duration of a clip: set by `with_duration`; a composite lasts as long
as its longest layer (none if any layer has no duration).  Effects are opaque
orchestration-level transforms and leave the recorded duration unchanged. -/
def vdur : Visual → Option ℚ
  | .imageClip _ => none
  | .textClip _ _ _ _ _ _ => none
  | .withDuration _ d => some d
  | .withFps c _ => vdur c
  | .withEffects c _ => vdur c
  | .withPosition c _ => vdur c
  | .composite ls => (vdurList ls).map (fun ds => ds.foldr max 0)

def vdurList : List Visual → Option (List ℚ)
  | [] => some []
  | v :: vs =>
    match vdur v, vdurList vs with
    | some d, some ds => some (d :: ds)
    | _, _ => none

end

-- ───────────────── Spec-modelled external collaborators ────────────────────

/-- The assembled timeline: the segments in concatenation order and the
concatenation method used. -/
structure Timeline where
  segments : List Visual
  method : String

/-- Errors of the assembly step. -/
inductive AssembleError where
  | emptyTimeline
deriving DecidableEq

/-- Modelled from the spec: `concatenate_videoclips(clips, method)` is
external MoviePy code (only its callers, lines 123 and 270, are in src/).
Per the spec (§4.3) it concatenates the segments strictly in input order
into a single Timeline using the given method, and an empty input fails
with an explicit empty-timeline error rather than producing a zero-length
output. -/
def concatenate_videoclips (clips : List Visual) (method : String) :
    Except AssembleError Timeline :=
  if clips.isEmpty then .error .emptyTimeline else .ok ⟨clips, method⟩

/-- Modelled from the spec: `afx.AudioLoop(duration=D)` is external MoviePy
code (only its callers, lines 131 and 274, are in src/).  An audio track is
its list of samples at the fixed sample rate, and the target duration `D` is
a sample count.  Per the spec (§4.4) the track is repeated from the start
until the target duration is reached, the final repetition being truncated
at the boundary; replicating the track `D` times always reaches the target,
since every nonempty track holds at least one sample, and a track whose
native duration is already `≥ D` is thereby truncated to exactly `D`
(pass-through when equal). -/
def audioLoop (track : List ℤ) (D : ℕ) : List ℤ :=
  ((List.replicate D track).flatten).take D

-- ───────────────────────── Script 1 (lines 1-142) ──────────────────────────

namespace V1

/-- `build_effects(*effects)` (lines 39-41): return a list of the non-None
effect objects, in argument order.  Optional (possibly-None) arguments are
`Option Effect`. -/
def build_effects (effects : List (Option Effect)) : List Effect :=
  effects.filterMap id

/-- The catalogue of lines 44-97.  Each zero-argument Python lambda is
embedded in state-passing style: a producer takes the world state (an
abstract `ℕ`) and returns its output together with the state it leaves
behind.  Each lambda's body only reads module-level constants and calls
pure constructors, so its embedding returns the state unchanged. -/
def ANIMATIONS : List (String × (ℕ → List Effect × ℕ)) :=
  [ ("Fade In / Fade Out", fun s => (build_effects [some (.FadeIn 0.8), some (.FadeOut 0.8)], s)),
    ("Slide‑In Left",      fun s => (build_effects [some (.SlideIn 0.8 "left")], s)),
    ("Slide‑In Right",     fun s => (build_effects [some (.SlideIn 0.8 "right")], s)),
    ("Slide‑In Top",       fun s => (build_effects [some (.SlideIn 0.8 "top")], s)),
    ("Slide‑In Bottom",    fun s => (build_effects [some (.SlideIn 0.8 "bottom")], s)),
    ("Slide‑Out Left",     fun s => (build_effects [some (.SlideOut 0.8 "left")], s)),
    ("Slide‑Out Right",    fun s => (build_effects [some (.SlideOut 0.8 "right")], s)),
    ("Slide‑Out Top",      fun s => (build_effects [some (.SlideOut 0.8 "top")], s)),
    ("Slide‑Out Bottom",   fun s => (build_effects [some (.SlideOut 0.8 "bottom")], s)),
    ("Rotate 360°",        fun s => (build_effects [some (.Rotate (.const 360))], s)),
    ("Rotate 180°",        fun s => (build_effects [some (.Rotate (.const 180))], s)),
    ("Mirror X",           fun s => (build_effects [some .MirrorX], s)),
    ("Mirror Y",           fun s => (build_effects [some .MirrorY], s)),
    ("Zoom‑In (enlarge)",  fun s => (build_effects [some (.Resize (.fn fun t => 1 + 0.25 * t))], s)),
    ("Zoom‑Out (shrink)",  fun s => (build_effects [some (.Resize (.fn fun t => 1.5 - 0.25 * t))], s)),
    ("Black & White",      fun s => (build_effects [some .BlackAndWhite], s)),
    ("Invert Colors",      fun s => (build_effects [some .InvertColors], s)),
    ("Increase Contrast",  fun s => (build_effects [some (.LumContrast 40)], s)),
    ("Mirror X + Rotate 45°", fun s => (build_effects [some .MirrorX, some (.Rotate (.const 45))], s)),
    ("Blink",              fun s => (build_effects [some (.Blink 0.2 0.2)], s)),
    ("Freeze Start",       fun s => (build_effects [some (.Freeze (.num 0) PER_CLIP_DURATION)], s)),
    ("Freeze End",         fun s => (build_effects
                                [some (.Freeze (.num (PER_CLIP_DURATION - 0.1)) PER_CLIP_DURATION)], s)),
    ("Time Mirror",        fun s => (build_effects [some .TimeMirror], s)),
    ("Time Symmetrize",    fun s => (build_effects [some .TimeSymmetrize], s)),
    ("SuperSample",        fun s => (build_effects [some (.SuperSample 0.1 6)], s)),
    ("Accel‑Decel",        fun s => (build_effects [some .AccelDecel], s)),
    ("Painting",           fun s => (build_effects [some .Painting], s)),
    ("Scroll X",           fun s => (build_effects [some (.Scroll 0 100)], s)),
    ("Gamma Boost (1.8)",  fun s => (build_effects [some (.GammaCorrection 1.8)], s)),
    ("Lum Contrast ↓",     fun s => (build_effects [some (.LumContrast (-40))], s)),
    ("Spin 360°",          fun s => (build_effects
                                [some (.Rotate (.fn fun t => 360 * t / PER_CLIP_DURATION))], s)),
    ("Orbit Zoom",         fun s => (build_effects
                                [some (.Rotate (.fn fun t => 45 * t / PER_CLIP_DURATION)),
                                 some (.Resize (.fn fun t => 1 + 0.15 * t))], s)),
    ("Pulsate Glow",       fun s => (build_effects
                                [some (.Margin 40 (255, 255, 0)), some (.Blink 0.15 0.15)], s)),
    ("Margin Glow",        fun s => (build_effects [some (.Margin 20 (255, 215, 0))], s)) ]

/-- The clip-building loop of lines 100-120: one composite clip per catalogue
entry, invoking each producer once, in order, threading the world state. -/
def clips : List Visual :=
  (ANIMATIONS.foldl
    (fun acc e =>
      let r := e.2 acc.2
      (acc.1 ++ [makeClipWith PER_CLIP_DURATION FPS e.1 r.1], r.2))
    ([], 0)).1

/-- Line 123. -/
def video : Except AssembleError Timeline := concatenate_videoclips clips "compose"

/-- Line 125. -/
def total_duration : ℚ := (clips.length : ℚ) * PER_CLIP_DURATION

end V1

-- ──────────────────────── Script 2 (lines 143-285) ─────────────────────────

namespace V2

-- Effect primitives (lines 178-210).  Python default-argument values are
-- applied explicitly at each call site below.

def fade (d : ℚ) : List Effect := [.FadeIn d, .FadeOut d]

def slide_in (side : String) (d : ℚ) : List Effect := [.SlideIn d side]

def slide_out (side : String) (d : ℚ) : List Effect := [.SlideOut d side]

def rotate (deg : ℚ) : List Effect := [.Rotate (.const deg)]

def mirror (axis : String) : List Effect :=
  if axis.toLower = "x" then [.MirrorX] else [.MirrorY]

def zoom (factor : ℚ) (mode : String) : List Effect :=
  let sign : ℚ := if mode = "in" then 1 else -1
  [.Resize (.fn fun t => 1 + sign * factor * (t / PER_CLIP_DURATION))]

def bw : List Effect := [.BlackAndWhite]

def invert : List Effect := [.InvertColors]

def contrast (delta : ℚ) : List Effect := [.LumContrast delta]

def gamma (val : ℚ) : List Effect := [.GammaCorrection val]

def margin (size : ℕ) (color : ℕ × ℕ × ℕ) : List Effect := [.Margin size color]

def blink (don doff : ℚ) : List Effect := [.Blink don doff]

def freeze (a : FreezeTime) : List Effect := [.Freeze a PER_CLIP_DURATION]

def time_mirror : List Effect := [.TimeMirror]

def time_sym : List Effect := [.TimeSymmetrize]

def supersample : List Effect := [.SuperSample 0.1 6]

def accel_decel : List Effect := [.AccelDecel]

def painting : List Effect := [.Painting]

def scroll_x (px : ℚ) : List Effect := [.Scroll 0 px]

-- Complex combos (lines 213-215): composition is list concatenation.

def spin360 : List Effect := [.Rotate (.fn fun t => 360 * t / PER_CLIP_DURATION)]

def orbit_zoom : List Effect := rotate 45 ++ zoom 0.15 "in"

def pulsate_glow : List Effect := margin 40 (255, 255, 0) ++ blink 0.15 0.15

/-- `seq(*effect_funcs)` (lines 218-223): start from the empty list and
extend it with each producer's output, in argument order. -/
def seq (effect_funcs : List (Unit → List Effect)) : List Effect :=
  effect_funcs.foldl (fun effects f => effects ++ f ()) []

/-- `make_clip(label, effects)` (lines 225-239): composite of the
effect-laden base image clip and the label text overlay, both lasting
`PER_CLIP_DURATION` at `FPS`. -/
def make_clip (label : String) (effects : List Effect) : Visual :=
  makeClipWith PER_CLIP_DURATION FPS label effects

/-- The playlist of lines 242-266.  Entries hold the *result* of the `seq`
calls (Python evaluates them when building the list).  Producers passed to
`seq` without arguments receive their declared default arguments. -/
def ANIMATIONS : List (String × List Effect) :=
  [ ("Fade In / Out",       seq [fun _ => fade 0.8]),
    ("Slide In‑Left",       seq [fun _ => slide_in "left" 0.8]),
    ("Slide Out‑Right",     seq [fun _ => slide_out "left" 0.8]),
    ("Rotate 180°",         seq [fun _ => rotate 90]),
    ("Mirror X",            seq [fun _ => mirror "x"]),
    ("Zoom‑In",             seq [fun _ => zoom 0.25 "in"]),
    ("Black & White",       seq [fun _ => bw]),
    ("Invert Colors",       seq [fun _ => invert]),
    ("High Contrast",       seq [fun _ => contrast 40]),
    ("Gamma Boost",         seq [fun _ => gamma 1.5]),
    ("Blink",               seq [fun _ => blink 0.2 0.2]),
    ("Freeze End",          seq [fun _ => freeze (.str "end")]),
    ("Time Mirror",         seq [fun _ => time_mirror]),
    ("SuperSample",         seq [fun _ => supersample]),
    ("Accel‑Decel",         seq [fun _ => accel_decel]),
    ("Painting",            seq [fun _ => painting]),
    ("Scroll X",            seq [fun _ => scroll_x 100]),
    ("Mirror + Rotate 45°", seq [fun _ => mirror "x", fun _ => rotate 45]),
    ("Spin 360°",           seq [fun _ => spin360]),
    ("Orbit Zoom",          seq [fun _ => orbit_zoom]),
    ("Pulsate Glow",        seq [fun _ => pulsate_glow]),
    ("Margin Glow",         seq [fun _ => margin 20 (255, 215, 0)]) ]

/-- The clip list of line 269 for an arbitrary registry. -/
def clipsOf (registry : List (String × List Effect)) : List Visual :=
  registry.map (fun e => make_clip e.1 e.2)

/-- Line 269. -/
def clips : List Visual := clipsOf ANIMATIONS

/-- Line 270. -/
def video : Except AssembleError Timeline := concatenate_videoclips clips "compose"

/-- The duration expression of line 274 (`len(clips) * PER_CLIP_DURATION`,
as on line 125), for an arbitrary clip list and per-segment duration. -/
def totalDurationOf (cs : List Visual) (d : ℚ) : ℚ := (cs.length : ℚ) * d

end V2

/-- The first catalogue entry of script 1, spelled out (used to exercise the
purity theorem at a concrete producer). -/
def entryFadeInOut : String × (ℕ → List Effect × ℕ) :=
  ("Fade In / Fade Out",
   fun s => (V1.build_effects [some (.FadeIn 0.8), some (.FadeOut 0.8)], s))

-- ───────────────────────────── Helper lemmas ───────────────────────────────

theorem vdur_makeClipWith (d : ℚ) (fps : ℕ) (l : String) (es : List Effect)
    (hd : 0 < d) : vdur (makeClipWith d fps l es) = some d := by
  simp [makeClipWith, vdur, vdurList, max_eq_left hd.le, max_self]

theorem length_flatten_replicate (a : List ℤ) (k : ℕ) :
    ((List.replicate k a).flatten).length = k * a.length := by
  induction k with
  | zero => simp
  | succ n ih => simp [List.replicate_succ, ih, Nat.succ_mul, Nat.add_comm]

theorem getD_flatten_replicate (a : List ℤ) (k i : ℕ) (hi : i < k * a.length) :
    ((List.replicate k a).flatten).getD i 0 = a.getD (i % a.length) 0 := by
  induction k generalizing i with
  | zero => simp at hi
  | succ n ih =>
    rw [List.replicate_succ, List.flatten_cons]
    rcases lt_or_le i a.length with h | h
    · rw [List.getD_append _ _ _ _ h, Nat.mod_eq_of_lt h]
    · rw [List.getD_append_right _ _ _ _ h, Nat.mod_eq_sub_mod h]
      have hmul : (n + 1) * a.length = n * a.length + a.length := Nat.succ_mul n a.length
      exact ih (i - a.length) (by omega)

theorem audioLoop_length (a : List ℤ) (D : ℕ) (ha : a ≠ []) :
    (audioLoop a D).length = D := by
  have hlen : 0 < a.length := List.length_pos.mpr ha
  have hle : D ≤ D * a.length := Nat.le_mul_of_pos_right D hlen
  simp [audioLoop, length_flatten_replicate, hle]

theorem getD_take (l : List ℤ) (n i : ℕ) (hi : i < n) :
    (l.take n).getD i 0 = l.getD i 0 := by
  induction l generalizing n i with
  | nil => simp
  | cons x xs ih =>
    cases n with
    | zero => omega
    | succ m =>
      cases i with
      | zero => simp
      | succ j => simpa using ih m j (by omega)

theorem audioLoop_of_length_eq (b : List ℤ) (D : ℕ) (hD : 0 < D)
    (hb : b.length = D) : audioLoop b D = b := by
  subst hb
  obtain ⟨k, hk⟩ : ∃ k, b.length = k + 1 :=
    ⟨b.length - 1, by omega⟩
  rw [audioLoop, hk, List.replicate_succ, List.flatten_cons, ← hk, List.take_left]

-- ───────────────────────────── Claim theorems ──────────────────────────────

/-- C3: for every audio track and every positive target duration `D`, the
fitted track lasts exactly `D`, and its `i`-th sample is the source track's
sample at `i` modulo the native duration — i.e. the track is looped from the
start with the final repetition truncated at the boundary, which truncates to
`D` (pass-through when equal) whenever the native duration is `≥ D`. -/
theorem audioLoop_fits_target (a : List ℤ) (D : ℕ) (ha : a ≠ []) (hD : 0 < D) :
    (audioLoop a D).length = D ∧
    ∀ i, i < D → (audioLoop a D).getD i 0 = a.getD (i % a.length) 0 := by
  have hlen : 0 < a.length := List.length_pos.mpr ha
  refine ⟨audioLoop_length a D ha, fun i hi => ?_⟩
  have hi2 : i < D * a.length := lt_of_lt_of_le hi (Nat.le_mul_of_pos_right D hlen)
  rw [audioLoop, getD_take _ _ _ hi]
  exact getD_flatten_replicate a D i hi2

/-- C3 witness: a 3-sample track fitted to 7 samples. -/
theorem audioLoop_fits_target_witness :
    ([3, 1, 4] ≠ ([] : List ℤ)) ∧ 0 < 7 ∧
    ((audioLoop [3, 1, 4] 7).length = 7 ∧
      ∀ i, i < 7 → (audioLoop [3, 1, 4] 7).getD i 0 = [3, 1, 4].getD (i % 3) 0) :=
  ⟨by decide, by decide, audioLoop_fits_target [3, 1, 4] 7 (by decide) (by decide)⟩

/-- C6: audio fitting is idempotent at a fixed target duration — fitting an
already-fitted track to the same duration is a no-op. -/
theorem audioLoop_idempotent (a : List ℤ) (D : ℕ) (ha : a ≠ []) (hD : 0 < D) :
    audioLoop (audioLoop a D) D = audioLoop a D :=
  audioLoop_of_length_eq (audioLoop a D) D hD (audioLoop_length a D ha)

/-- C6 witness: a 2-sample track fitted twice to 5 samples. -/
theorem audioLoop_idempotent_witness :
    ([2, 5] ≠ ([] : List ℤ)) ∧ 0 < 3 ∧
    audioLoop (audioLoop [2, 5] 3) 3 = audioLoop [2, 5] 3 :=
  ⟨by decide, by decide, audioLoop_idempotent [2, 5] 3 (by decide) (by decide)⟩

/-- C7: assembling an empty sequence of segments fails with the explicit
empty-timeline error, whatever the concatenation method, rather than
returning a zero-duration timeline. -/
theorem assemble_empty_fails (method : String) :
    concatenate_videoclips [] method = Except.error AssembleError.emptyTimeline :=
  rfl

/-- C5: `seq` of any list of producers returns the concatenation of the
producers' outputs in argument order, preserving the relative order inside
each producer's output. -/
theorem seq_eq_concat_of_outputs (fs : List (Unit → List Effect)) :
    V2.seq fs = (fs.map (fun f => f ())).flatten := by
  suffices h : ∀ acc : List Effect,
      fs.foldl (fun effects f => effects ++ f ()) acc
        = acc ++ (fs.map (fun f => f ())).flatten by
    simpa [V2.seq] using h []
  induction fs with
  | nil => intro acc; simp
  | cons f t ih => intro acc; simp [ih, List.append_assoc]

/-- C10: `build_effects` returns exactly the non-None arguments, in argument
order; in particular on an all-non-None argument list it is the identity. -/
theorem build_effects_keeps_non_none :
    (∀ es : List (Option Effect),
        (V1.build_effects es).map Option.some = es.filter (fun e => e.isSome)) ∧
    (∀ es : List Effect, V1.build_effects (es.map Option.some) = es) := by
  constructor
  · intro es
    induction es with
    | nil => rfl
    | cons a t ih => cases a <;> simp [V1.build_effects, List.filterMap_cons] <;>
        simpa [V1.build_effects] using ih
  · intro es
    induction es with
    | nil => rfl
    | cons a t ih => simpa [V1.build_effects, List.filterMap_cons] using ih

/-- C1: for every non-empty registry, assembly succeeds and the timeline has
exactly one segment per registry entry, in registry order: the `i`-th segment
is the clip built from the `i`-th (label, effect-sequence) entry, and the
compose concatenation mode is used. -/
theorem timeline_one_segment_per_entry (registry : List (String × List Effect))
    (hne : 0 < registry.length) :
    ∃ t : Timeline,
      concatenate_videoclips (V2.clipsOf registry) "compose" = Except.ok t ∧
      t.method = "compose" ∧
      t.segments.length = registry.length ∧
      ∀ i, i < registry.length →
        t.segments.getD i (Visual.composite [])
          = V2.make_clip (registry.getD i ("", [])).1 (registry.getD i ("", [])).2 := by
  have hlen : (V2.clipsOf registry).length = registry.length := by
    simp [V2.clipsOf]
  have hne' : (V2.clipsOf registry).isEmpty = false := by
    rw [List.isEmpty_eq_false_iff_exists_mem]
    rcases registry with _ | ⟨e, t⟩
    · exact absurd hne (by simp)
    · exact ⟨V2.make_clip e.1 e.2, by simp [V2.clipsOf]⟩
  refine ⟨⟨V2.clipsOf registry, "compose"⟩, ?_, rfl, hlen, ?_⟩
  · rw [concatenate_videoclips, hne']
    rfl
  · intro i hi
    have hi' : i < (V2.clipsOf registry).length := by rw [hlen]; exact hi
    rw [List.getD_eq_getElem _ _ hi', List.getD_eq_getElem _ _ hi]
    simp [V2.clipsOf]

/-- C1 witness: the theorem applied to the script-2 registry. -/
theorem timeline_one_segment_per_entry_witness :
    0 < V2.ANIMATIONS.length ∧
    (∃ t : Timeline,
      concatenate_videoclips (V2.clipsOf V2.ANIMATIONS) "compose" = Except.ok t ∧
      t.method = "compose" ∧
      t.segments.length = V2.ANIMATIONS.length ∧
      ∀ i, i < V2.ANIMATIONS.length →
        t.segments.getD i (Visual.composite [])
          = V2.make_clip (V2.ANIMATIONS.getD i ("", [])).1
              (V2.ANIMATIONS.getD i ("", [])).2) :=
  ⟨by decide, timeline_one_segment_per_entry V2.ANIMATIONS (by decide)⟩

/-- C2: for every registry with a positive number of entries and every
positive per-segment duration `d`, the computed total duration
(`len(clips) * d`, lines 125 and 274) equals the entry count times `d`, and
that product equals the sum of the individual segment durations, every
segment being built with exactly `d` seconds. -/
theorem total_duration_eq_sum (registry : List (String × List Effect)) (d : ℚ)
    (hn : 0 < registry.length) (hd : 0 < d) :
    V2.totalDurationOf (registry.map (fun e => makeClipWith d FPS e.1 e.2)) d
        = (registry.length : ℚ) * d ∧
    V2.totalDurationOf (registry.map (fun e => makeClipWith d FPS e.1 e.2)) d
        = ((registry.map (fun e => makeClipWith d FPS e.1 e.2)).map
            (fun c => (vdur c).getD 0)).sum := by
  constructor
  · simp [V2.totalDurationOf]
  · rw [V2.totalDurationOf, List.map_map, List.length_map]
    have hc : ((fun c => (vdur c).getD 0) ∘ fun e : String × List Effect =>
        makeClipWith d FPS e.1 e.2) = fun _ => d := by
      funext e
      simp [Function.comp, vdur_makeClipWith d FPS e.1 e.2 hd]
    rw [hc, List.map_const', List.sum_replicate, nsmul_eq_mul]

/-- C2 witness: the theorem applied to the script-2 registry at the
per-segment duration of 2 seconds. -/
theorem total_duration_eq_sum_witness :
    0 < V2.ANIMATIONS.length ∧ (0 : ℚ) < 2 ∧
    (V2.totalDurationOf (V2.ANIMATIONS.map (fun e => makeClipWith 2 FPS e.1 e.2)) 2
        = (V2.ANIMATIONS.length : ℚ) * 2 ∧
     V2.totalDurationOf (V2.ANIMATIONS.map (fun e => makeClipWith 2 FPS e.1 e.2)) 2
        = ((V2.ANIMATIONS.map (fun e => makeClipWith 2 FPS e.1 e.2)).map
            (fun c => (vdur c).getD 0)).sum) :=
  ⟨by decide, by norm_num, total_duration_eq_sum V2.ANIMATIONS 2 (by decide) (by norm_num)⟩

/-- C4: building a segment composites exactly two layers — the base visual,
built from the fixed image resource with the configured per-segment duration
and frame rate and with the entry's effect sequence applied in declared
order, and on top of it the label text overlay lasting the per-segment
duration, positioned bottom-center. -/
theorem make_clip_builds_labelled_segment (label : String) (es : List Effect) :
    ∃ base txt : Visual,
      V2.make_clip label es = Visual.composite [base, txt] ∧
      baseSource base = some image_path ∧
      vdur base = some PER_CLIP_DURATION ∧
      fpsOf base = some FPS ∧
      effectsApplied base = es ∧
      textOf txt = some label ∧
      vdur txt = some PER_CLIP_DURATION ∧
      positionOf txt = some ("center", "bottom") := by
  refine ⟨_, _, rfl, rfl, rfl, rfl, ?_, rfl, rfl, rfl⟩
  simp [effectsApplied]

/-- C8: every effect-sequence producer in the script-1 registry is pure and
deterministic — invoked at any world state it returns the same effect list
and leaves the state unchanged, so repeated invocations in any order agree
and have no side effects. -/
theorem producers_pure (e : String × (ℕ → List Effect × ℕ))
    (he : e ∈ V1.ANIMATIONS) (s₁ s₂ : ℕ) :
    (e.2 s₁).1 = (e.2 s₂).1 ∧ (e.2 s₁).2 = s₁ := by
  fin_cases he <;> exact ⟨rfl, rfl⟩

/-- C8 witness: the first producer of the catalogue, invoked at two
different world states. -/
theorem producers_pure_witness :
    entryFadeInOut ∈ V1.ANIMATIONS ∧
    ((entryFadeInOut.2 5).1 = (entryFadeInOut.2 9).1 ∧ (entryFadeInOut.2 5).2 = 5) :=
  have hm : entryFadeInOut ∈ V1.ANIMATIONS := List.mem_cons_self _ _
  ⟨hm, producers_pure entryFadeInOut hm 5 9⟩

/-- C9 counterexample: the claim fails on the script-2 catalogue.  Its
"Freeze End" entry (index 11) produces a Freeze descriptor whose timestamp is
the string sentinel `"end"`, not the numeric offset
`PER_CLIP_DURATION - 0.1`. -/
theorem freeze_end_claim_fails_on_script2 :
    (V2.ANIMATIONS.getD 11 ("", [])).1 = "Freeze End" ∧
    (V2.ANIMATIONS.getD 11 ("", [])).2
        = [Effect.Freeze (FreezeTime.str "end") PER_CLIP_DURATION] ∧
    FreezeTime.str "end" ≠ FreezeTime.num (PER_CLIP_DURATION - 0.1) :=
  ⟨rfl, rfl, by decide⟩

/-- C9 amended: each script's "Freeze End" entry produces exactly one Freeze
descriptor with `freeze_duration = PER_CLIP_DURATION`; in script 1 (catalogue
index 21) the freeze timestamp is the relative offset
`PER_CLIP_DURATION - 0.1` (0.1 s before the segment boundary), while in
script 2 (catalogue index 11) it is the `"end"` sentinel. -/
theorem freeze_end_entries :
    ((V1.ANIMATIONS.getD 21 ("", fun s => ([], s))).1 = "Freeze End" ∧
      ((V1.ANIMATIONS.getD 21 ("", fun s => ([], s))).2 0).1
        = [Effect.Freeze (FreezeTime.num (PER_CLIP_DURATION - 0.1))
            PER_CLIP_DURATION]) ∧
    ((V2.ANIMATIONS.getD 11 ("", [])).1 = "Freeze End" ∧
      (V2.ANIMATIONS.getD 11 ("", [])).2
        = [Effect.Freeze (FreezeTime.str "end") PER_CLIP_DURATION]) :=
  ⟨⟨rfl, rfl⟩, ⟨rfl, rfl⟩⟩
